import Mathlib

/-!
Verification of the JMatrix build-support scripts (POM-driven placeholder
substitution pipeline) against their natural-language specification.

The Python sources are shallowly embedded: strings are Lean String values
(manipulated through their underlying character lists), file contents are
lists of lines, the filesystem state touched by the cache retriever is an
explicit record, and every fallible operation returns Except.  External
collaborators (the bs4 pretty-printer, hashlib.md5, the wall clock) enter
as explicit function or string parameters.
-/

set_option linter.unusedVariables false

/-! ## Python string semantics (shared toolkit)

The scripts rely on CPython string methods: str.strip, str.split (both the
no-argument whitespace form and the single-delimiter maxsplit form),
str.lower / str.upper, str.startswith, str.splitlines and str.join.  They
are modelled here over the character list of a String.  Only ASCII inputs
occur in the repository; Unicode-only divergences (e.g. str.lower on
non-ASCII letters, exotic line boundaries in splitlines) are out of scope
and noted where relevant. -/

/-- Python str whitespace for ASCII text: the characters stripped or split
on by str.strip and str.split. -/
def pyIsWs (c : Char) : Bool :=
  c = ' ' || c = '\t' || c = '\n' || c = '\x0d' || c = '\x0b' || c = '\x0c'

/-- Python str.strip on a character list: whitespace removed from both ends. -/
def pyStripL (l : List Char) : List Char :=
  ((l.dropWhile pyIsWs).reverse.dropWhile pyIsWs).reverse

/-- Python str.strip on a String. -/
def pyStrip (s : String) : String :=
  ⟨pyStripL s.data⟩

/-- Accumulator pass for the no-argument str.split: acc holds the current
token reversed. -/
def pySplitWsAux : List Char → List Char → List (List Char)
  | [], acc => if acc.isEmpty then [] else [acc.reverse]
  | c :: cs, acc =>
    if pyIsWs c then
      if acc.isEmpty then pySplitWsAux cs [] else acc.reverse :: pySplitWsAux cs []
    else
      pySplitWsAux cs (c :: acc)

/-- Python str.split() (no argument): split on whitespace runs, dropping
empty tokens. -/
def pySplitWsL (l : List Char) : List (List Char) :=
  pySplitWsAux l []

/-- Python str.split() on a String, returning String tokens. -/
def pySplitWs (s : String) : List String :=
  (pySplitWsL s.data).map (fun l => ⟨l⟩)

/-- Python sep.join(tokens). -/
def pyJoin (sep : String) : List String → String
  | [] => ""
  | [t] => t
  | t :: ts => t ++ sep ++ pyJoin sep ts

/-- Python str.lower for the ASCII text handled by the scripts. -/
def pyLower (s : String) : String :=
  ⟨s.data.map Char.toLower⟩

/-- Python str.upper for the ASCII text handled by the scripts. -/
def pyUpper (s : String) : String :=
  ⟨s.data.map Char.toUpper⟩

/-- Python str.startswith, on character lists (pattern first). -/
def pyStartsWithL (pat : List Char) (l : List Char) : Bool :=
  match pat, l with
  | [], _ => true
  | _ :: _, [] => false
  | p :: ps, c :: cs => p = c && pyStartsWithL ps cs

/-- Python str.startswith on Strings (pattern first). -/
def pyStartsWith (pat : String) (s : String) : Bool :=
  pyStartsWithL pat.data s.data

/-- Python str.split(sep) for a one-character separator: keeps empty parts. -/
def pySplitSepL (sep : Char) (l : List Char) : List (List Char) :=
  match l with
  | [] => [[]]
  | c :: cs =>
    if c = sep then
      [] :: pySplitSepL sep cs
    else
      match pySplitSepL sep cs with
      | [] => [[c]]
      | p :: ps => (c :: p) :: ps

/-- Python str.split(sep) on Strings for a one-character separator. -/
def pySplitSep (sep : Char) (s : String) : List String :=
  (pySplitSepL sep s.data).map (fun l => ⟨l⟩)

/-- Python str.splitlines restricted to the newline character: the final
piece is dropped when the text ends with a newline (and for empty text the
result is empty).  The repository's manifest template only ever contains
line-feed boundaries; carriage returns and Unicode line boundaries do not
occur. -/
def pySplitLines (s : String) : List String :=
  match pySplitSep '\n' s with
  | [] => []
  | parts => if parts.getLast? = some "" then parts.dropLast else parts

/-- Python str.split(delim, maxsplit=1) for a one-character delimiter:
one part when the delimiter is absent, otherwise exactly two. -/
def pySplit1L (delim : Char) (l : List Char) : List (List Char) :=
  match l with
  | [] => [[]]
  | c :: cs =>
    if c = delim then
      [[], cs]
    else
      match pySplit1L delim cs with
      | [] => [[c]]
      | p :: ps => (c :: p) :: ps

/-- Python str.split(delim, maxsplit=1) on Strings. -/
def pySplit1 (delim : Char) (s : String) : List String :=
  (pySplit1L delim s.data).map (fun l => ⟨l⟩)

/-- Python list.index restricted to the successful case: index of the first
element equal to the probe (none when absent, where Python raises). -/
def pyIndexOfEq (l : List String) (x : String) : Option Nat :=
  l.findIdx? (fun y => y = x)

/-- Python dict.get with a default, over an association list whose key
order is insertion order (models the JSON-decoded configuration dict). -/
def pyDictGetD (d : List (String × String)) (k : String) (dflt : String) : String :=
  match d.lookup k with
  | some v => v
  | none => dflt

/-- Python dict.get without a default (None when absent). -/
def pyDictGet? (d : List (String × String)) (k : String) : Option String :=
  d.lookup k

/-- Rendering of a Python value inside an f-string: None prints as the four
characters None, a string prints verbatim. -/
def pyFStr (v : Option String) : String :=
  match v with
  | some s => s
  | none => "None"

example : pyStrip "  a b " = "a b" := by decide
example : pySplitWs "VERSION  :=  1.1.9" = ["VERSION", ":=", "1.1.9"] := by decide
example : pyJoin " " ["VERSION", ":=", "1.2.0"] = "VERSION := 1.2.0" := by decide
example : pySplitSep '\n' "a\nb\n" = ["a", "b", ""] := by decide
example : pySplitLines "\na\nb\n" = ["", "a", "b"] := by decide
example : pySplit1 '=' "a = b=c" = ["a ", " b=c"] := by decide
example : pySplit1 ':' "ab" = ["ab"] := by decide
example : pyStartsWith "version" "versionx := 1" = true := by decide

/-! ## Error values

Python exceptions raised by the scripts, as an inductive type.  Each fatal
exception aborts the operation (the scripts either let it propagate or call
a raise-and-exit helper); an operation that raises commits no write. -/

deriving instance DecidableEq for Except

/-- The exceptions the embedded code can raise. -/
inductive PyErr where
  | keyError (k : String)
  | valueError (msg : String)
  | indexError
  | typeError
  | badEscape
  deriving Repr, DecidableEq

/-! ## Regex machinery

Both rewrite implementations locate placeholders with Python regular
expressions.  Only two pattern shapes occur, and both are modelled
directly:

* a placeholder scan, dollar, open brace, a nonempty greedy run of a
  character class, close brace — since the closing brace is never a member
  of either class, the greedy run never backtracks, so the scan below
  (maximal class run, then a mandatory closing brace) is exact;
* re.sub with the literal pattern dollar-brace-key-brace, in which a dot
  inside the key is a regex wildcard matching any character except a
  newline.

Scanners take fuel (initially the input length, which suffices because
every match consumes at least one character) so that they are structural
recursions the kernel can evaluate. -/

/-- Character comparison for a literal regex character. -/
def eqLit (p c : Char) : Bool :=
  p = c

/-- Character comparison where a dot in the pattern is the regex wildcard
(matching anything but a newline), as happens to the keys interpolated
into the re.sub pattern of the config.xml branch. -/
def eqWild (p c : Char) : Bool :=
  if p = '.' then c ≠ '\n' else p = c

/-- Match a fixed-length pattern against the head of the input under a
character comparison; returns the unconsumed rest on success. -/
def matchPat (eq : Char → Char → Bool) : List Char → List Char → Option (List Char)
  | [], s => some s
  | _ :: _, [] => none
  | p :: ps, c :: cs => if eq p c then matchPat eq ps cs else none

/-- The full placeholder pattern for a key: dollar, open brace, the key,
close brace. -/
def placeholderPat (key : List Char) : List Char :=
  '$' :: '\x7b' :: (key ++ ['\x7d'])

/-- One global-substitution pass, re.sub style: scan left to right, on a
match emit the replacement and continue after the match (non-overlapping),
on a failure keep one character and retry at the next position.  The
empty-pattern guard is unreachable for placeholder patterns. -/
def subScanAux (eq : Char → Char → Bool) (pat repl : List Char) : Nat → List Char → List Char
  | 0, s => s
  | _ + 1, [] => []
  | fuel + 1, c :: cs =>
    match matchPat eq pat (c :: cs) with
    | some rest =>
      if pat.isEmpty then c :: cs
      else repl ++ subScanAux eq pat repl fuel rest
    | none => c :: subScanAux eq pat repl fuel cs

/-- re.sub of a fixed pattern over the whole input. -/
def subScan (eq : Char → Char → Bool) (pat repl s : List Char) : List Char :=
  subScanAux eq pat repl s.length s

/-- Try to read one whole placeholder at the head of the input: dollar,
open brace, a nonempty maximal run of class characters, close brace.
Returns the key and the rest after the closing brace. -/
def tryKeyAt (cls : Char → Bool) (s : List Char) : Option (List Char × List Char) :=
  match s with
  | '$' :: '\x7b' :: rest =>
    let run := rest.takeWhile cls
    if run.isEmpty then none
    else
      match rest.dropWhile cls with
      | '\x7d' :: rest2 => some (run, rest2)
      | _ => none
  | _ => none

/-- re.findall of the placeholder pattern: all keys in occurrence order,
duplicates included. -/
def findKeysAux (cls : Char → Bool) : Nat → List Char → List (List Char)
  | 0, _ => []
  | _ + 1, [] => []
  | fuel + 1, c :: cs =>
    match tryKeyAt cls (c :: cs) with
    | some (k, rest) => k :: findKeysAux cls fuel rest
    | none => findKeysAux cls fuel cs

/-- All placeholder keys of a text, in occurrence order with duplicates. -/
def findKeys (cls : Char → Bool) (s : String) : List String :=
  (findKeysAux cls s.data.length s.data).map (fun l => ⟨l⟩)

/-! ## The three placeholder character classes

fix_config.py line 474 uses the class backslash-w dot hyphen; core.py line
308 writes backslash-w dot hyphen escaped-open-bracket escaped-close-
bracket, but its hyphen is unescaped and sits between two class atoms, so
Python reads dot-hyphen-bracket as the codepoint range 0x2E to 0x5B; the
spec prescribes word characters, dot, escaped hyphen and both brackets.
Python's backslash-w is Unicode-aware; the scripts only ever see ASCII, so
the ASCII reading is used. -/

/-- Python regex backslash-w on ASCII text: letters, digits, underscore. -/
def pyWordChar (c : Char) : Bool :=
  c.isAlpha || c.isDigit || c = '_'

/-- The character class of the config.xml placeholder regex in
fix_config.py: word characters, dot, hyphen. -/
def fcKeyChar (c : Char) : Bool :=
  pyWordChar c || c = '.' || c = '-'

/-- The character class of the placeholder regex in core.py: word
characters, the accidental codepoint range from dot (0x2E) to open bracket
(0x5B), and close bracket.  The hyphen itself (0x2D) is not in the class. -/
def coreKeyChar (c : Char) : Bool :=
  pyWordChar c || ('.' ≤ c && c ≤ '[') || c = ']'

/-- Modelled from the spec: the placeholder identifier class the spec
prescribes for every rewrite path — word characters, dot, hyphen and the
two brackets. -/
def specKeyChar (c : Char) : Bool :=
  pyWordChar c || c = '.' || c = '-' || c = '[' || c = ']'

/-- Whether a whole identifier is accepted by a class (the language of
class-plus: nonempty, all characters in the class). -/
def acceptsIdent (cls : Char → Bool) (s : String) : Bool :=
  !s.data.isEmpty && s.data.all cls

/-- Identifiers accepted by the fix_config.py placeholder pattern. -/
def fcAccepts (s : String) : Bool :=
  acceptsIdent fcKeyChar s

/-- Identifiers accepted by the core.py placeholder pattern. -/
def coreAccepts (s : String) : Bool :=
  acceptsIdent coreKeyChar s

/-- Identifiers accepted by the spec's prescribed pattern. -/
def specAccepts (s : String) : Bool :=
  acceptsIdent specKeyChar s

example : findKeys fcKeyChar "$\x7ba-b\x7d $\x7ba[0]\x7d" = ["a-b"] := by decide
example : findKeys coreKeyChar "$\x7bproject.developers[0].name\x7d $\x7ba-b\x7d $\x7ba:b\x7d" =
    ["project.developers[0].name", "a:b"] := by decide
example : subScan eqWild (placeholderPat "a.b".data) "V".data "$\x7ba.b\x7d $\x7baXb\x7d".data =
    "V V".data := by decide

/-! ## Version resolution

fix_config.py resolves the version from the cached POM namespace
(FixConfig.__get_version, lines 269 to 276): the bare
package.version.core unless the lower-cased package.releaseType differs
from release, in which case hyphen, releaseType, dot, betaNum are
appended; each lookup defaults to the string null.

fix_version.py (lines 85 to 93) resolves from the config.xml data: the
bare version value unless the version type differs (case-sensitively)
from release, in which case value-type.beta_num is formatted; the
beta_num lookup is a plain subscript that raises KeyError when absent. -/

/-- FixConfig.__get_version, fixed_only part: the resolved version string
from the cached namespace. -/
def fixedVersionOf (cfg : List (String × String)) : String :=
  let v := pyDictGetD cfg "package.version.core" "null"
  if pyLower (pyDictGetD cfg "package.releaseType" "null") ≠ "release" then
    v ++ "-" ++ pyDictGetD cfg "package.releaseType" "null" ++ "." ++
      pyDictGetD cfg "package.betaNum" "null"
  else
    v

/-- The version record fix_version.py reads out of config.xml: the version
value, its type attribute, and the optional beta_num entry. -/
structure FVConfig where
  value : String
  vtype : String
  betaNum : Option String
  deriving Repr, DecidableEq

/-- fix_version.py's resolved version: value-type.beta_num when the type
is not exactly release (KeyError when beta_num is absent), else the bare
value. -/
def fvResolve (cfg : FVConfig) : Except PyErr String :=
  if cfg.vtype ≠ "release" then
    match cfg.betaNum with
    | some b => .ok (cfg.value ++ "-" ++ cfg.vtype ++ "." ++ b)
    | none => .error (.keyError "beta_num")
  else
    .ok cfg.value

/-! ## fix_version.py, the version-line fixer (lines 103 to 136)

The loop takes the first line that starts (case-sensitively) with the
delimiter keyword, recovers its index with list.index (first equal
element), splits the line into whitespace tokens, and compares the last
token with the resolved version: equal means no change and no write;
otherwise the last token is replaced and the line rebuilt by joining the
tokens with single spaces plus a line separator (the build host's
os.linesep, a line feed).  A missing declaration raises. -/

/-- The loop that finds the first line starting with the delimiter. -/
def fvFindDecl (delim : String) : List String → Option String
  | [] => none
  | c :: cs => if pyStartsWith delim c then some c else fvFindDecl delim cs

/-- fix_version.py lines 103 to 136: returns the changed flag and the
resulting file lines (the caller writes them back only when changed). -/
def fix_version (contents : List String) (cfgVersion : String) (delim : String) :
    Except PyErr (Bool × List String) :=
  match fvFindDecl delim contents with
  | none => .error (.valueError "no declaration")
  | some content =>
    match pyIndexOfEq contents content with
    | none => .error .indexError
    | some idx =>
      let version := pySplitWs content
      if h : version = [] then
        .error .indexError
      else
        if version.getLast h = cfgVersion then
          .ok (false, contents)
        else
          .ok (true, contents.set idx (pyJoin " " (version.set (version.length - 1) cfgVersion) ++ "\n"))

example : fix_version ["VERSION := 1.1.9\n"] "1.2.0" "VERSION" =
    .ok (true, ["VERSION := 1.2.0\n"]) := by decide
example : fix_version ["VERSION := 1.2.0\n"] "1.2.0" "VERSION" =
    .ok (false, ["VERSION := 1.2.0\n"]) := by decide

/-! ## Claim C4: the resolved version string -/

/-- Claim C4, counterexample.  The claim says the resolved version equals
the bare version exactly when the release-type property equals release and
otherwise is version-releaseType.betaNum; but FixConfig.__get_version
lower-cases the release type before comparing, so for releaseType Release
(capital R, not equal to release) the code still yields the bare version
1.2.0 instead of the claimed 1.2.0-Release.3. -/
theorem c4_counterexample :
    fixedVersionOf
      [("package.version.core", "1.2.0"), ("package.releaseType", "Release"),
       ("package.betaNum", "3")] = "1.2.0" ∧
    ("1.2.0" : String) ≠ "1.2.0-Release.3" := by
  constructor
  · decide
  · decide

/-- Claim C4, amended: FixConfig.__get_version compares the release type
case-insensitively (any casing of release yields the bare version, and
otherwise version-releaseType.betaNum with lookups defaulting to null),
while fix_version.py compares case-sensitively, yielding the bare value
exactly when the type is the literal string release and
value-type.beta_num otherwise. -/
theorem c4_amended :
    (∀ v rt bn : String,
      fixedVersionOf
        [("package.version.core", v), ("package.releaseType", rt), ("package.betaNum", bn)] =
        if pyLower rt = "release" then v else v ++ "-" ++ rt ++ "." ++ bn) ∧
    (∀ v : String, ∀ b : Option String, fvResolve ⟨v, "release", b⟩ = .ok v) ∧
    (∀ v t b : String, t ≠ "release" →
      fvResolve ⟨v, t, some b⟩ = .ok (v ++ "-" ++ t ++ "." ++ b)) := by
  refine ⟨fun v rt bn => ?_, fun v b => ?_, fun v t b ht => ?_⟩
  · by_cases h : pyLower rt = "release" <;>
      simp [fixedVersionOf, pyDictGetD, List.lookup, h]
  · simp [fvResolve]
  · simp [fvResolve, ht]

/-- Witness for the amended claim C4 at concrete inputs. -/
theorem c4_amended_witness :
    fvResolve ⟨"1.2.0", "beta", some "3"⟩ = .ok "1.2.0-beta.3" :=
  c4_amended.2.2 "1.2.0" "beta" "3" (by decide)

/-! ## Claim C5: the version-line fixer of fix_version.py -/

/-- Claim C5, counterexample.  The claim says the trailing token is
replaced in place, preserving the rest of the line's tokens and spacing;
but fix_version.py rebuilds the line by joining the whitespace tokens with
single spaces, so a declaration written with double spaces comes back with
single spaces: the line VERSION(2 spaces):=(2 spaces)1.1.9 becomes
VERSION := 1.2.0, not VERSION(2 spaces):=(2 spaces)1.2.0. -/
theorem c5_counterexample :
    fix_version ["VERSION  :=  1.1.9\n"] "1.2.0" "VERSION" =
      .ok (true, ["VERSION := 1.2.0\n"]) ∧
    ("VERSION := 1.2.0\n" : String) ≠ "VERSION  :=  1.2.0\n" := by
  constructor
  · decide
  · decide

/-- Claim C5, amended: on file lines containing a version-declaration line
(the first line starting with the keyword, whose whitespace-token list is
nonempty), fix_version reports changed false and returns every line
unmodified when that line's last whitespace token already equals the
resolved version; otherwise it reports changed true and replaces exactly
that line by its tokens — last token replaced by the resolved version —
joined with single spaces (normalizing the line's internal spacing) plus a
line feed, leaving all other lines unmodified. -/
theorem c5_amended (contents : List String) (cfgVersion delim c : String) (idx : Nat)
    (hfind : fvFindDecl delim contents = some c)
    (hidx : pyIndexOfEq contents c = some idx)
    (hne : pySplitWs c ≠ []) :
    contents.get? idx = some c ∧
    ((pySplitWs c).getLast hne = cfgVersion →
      fix_version contents cfgVersion delim = .ok (false, contents)) ∧
    ((pySplitWs c).getLast hne ≠ cfgVersion →
      fix_version contents cfgVersion delim =
        .ok (true, contents.set idx
          (pyJoin " " ((pySplitWs c).set ((pySplitWs c).length - 1) cfgVersion) ++ "\n"))) := by
  refine ⟨?_, fun heq => ?_, fun hne' => ?_⟩
  · have h := (List.findIdx?_eq_some_iff_getElem).mp hidx
    obtain ⟨hlt, hp, -⟩ := h
    have : contents[idx] = c := by simpa using hp
    simp [List.get?_eq_getElem?, List.getElem?_eq_getElem hlt, this]
  · simp only [fix_version, hfind, hidx, dif_neg hne]
    simp [heq]
  · simp only [fix_version, hfind, hidx, dif_neg hne]
    simp [hne']

/-- Witness for the amended claim C5 at a concrete two-line file. -/
theorem c5_amended_witness :
    fix_version ["# JMatrix build\n", "VERSION := 1.1.9\n"] "1.2.0" "VERSION" =
      .ok (true, ["# JMatrix build\n", "VERSION := 1.2.0\n"]) := by
  have h := (c5_amended ["# JMatrix build\n", "VERSION := 1.1.9\n"] "1.2.0" "VERSION"
    "VERSION := 1.1.9\n" 1 (by decide) (by decide) (by decide)).2.2 (by decide)
  simpa using h

/-! ## Claim C7: the placeholder character classes -/

/-- Claim C7, counterexample.  The claim says every rewrite path
recognizes exactly the identifiers of word characters, dots, hyphens and
brackets; but the config.xml path's class (fix_config.py line 474) has no
brackets, so project.developers[0].name is not recognized there, and the
core.py class (line 308) reads its unescaped hyphen as the range from dot
to open bracket, so the hyphenated key a-b is not recognized there —
while the spec's class accepts both. -/
theorem c7_counterexample :
    coreAccepts "a-b" = false ∧
    fcAccepts "project.developers[0].name" = false ∧
    specAccepts "a-b" = true ∧
    specAccepts "project.developers[0].name" = true := by
  refine ⟨by decide, by decide, by decide, by decide⟩

/-- Claim C7, amended: the two rewrite paths use different classes and
neither matches the spec's.  fix_config.py accepts hyphenated keys but no
bracketed ones; core.py accepts bracketed keys — and, through the
accidental dot-to-bracket codepoint range, punctuation such as a colon —
but never a hyphen; every spec-accepted identifier missed by fix_config.py
contains a bracket, and every one missed by core.py contains a hyphen. -/
theorem c7_amended :
    fcAccepts "a-b" = true ∧
    fcAccepts "a[0]" = false ∧
    coreAccepts "project.developers[0].name" = true ∧
    coreAccepts "a:b" = true ∧
    (∀ s : String, coreAccepts s = true → '-' ∉ s.data) ∧
    (∀ s : String, specAccepts s = true → fcAccepts s = true ∨ '[' ∈ s.data ∨ ']' ∈ s.data) ∧
    (∀ s : String, specAccepts s = true → coreAccepts s = true ∨ '-' ∈ s.data) := by
  refine ⟨by decide, by decide, by decide, by decide, fun s hs hmem => ?_, fun s hs => ?_, fun s hs => ?_⟩
  · simp only [coreAccepts, acceptsIdent, Bool.and_eq_true, List.all_eq_true] at hs
    have h := hs.2 '-' hmem
    exact absurd h (by decide)
  · simp only [specAccepts, fcAccepts, acceptsIdent, Bool.and_eq_true, List.all_eq_true] at hs ⊢
    by_cases hbr : '[' ∈ s.data ∨ ']' ∈ s.data
    · exact Or.inr hbr
    · push_neg at hbr
      refine Or.inl ⟨hs.1, fun c hc => ?_⟩
      have h := hs.2 c hc
      simp only [specKeyChar, Bool.or_eq_true] at h
      rcases h with ((((hw | hd) | hh) | hob) | hcb)
      · simp [fcKeyChar, hw]
      · simp [fcKeyChar, hd]
      · simp [fcKeyChar, hh]
      · exact absurd hc (by simp_all)
      · exact absurd hc (by simp_all)
  · simp only [specAccepts, coreAccepts, acceptsIdent, Bool.and_eq_true, List.all_eq_true] at hs ⊢
    by_cases hhy : '-' ∈ s.data
    · exact Or.inr hhy
    · refine Or.inl ⟨hs.1, fun c hc => ?_⟩
      have h := hs.2 c hc
      simp only [specKeyChar, Bool.or_eq_true] at h
      rcases h with ((((hw | hd) | hh) | hob) | hcb)
      · simp [coreKeyChar, hw]
      · simp only [decide_eq_true_eq] at hd
        subst hd; decide
      · exact absurd hc (by simp_all)
      · simp only [decide_eq_true_eq] at hob
        subst hob; decide
      · simp only [decide_eq_true_eq] at hcb
        subst hcb; decide

/-- Witness for the amended claim C7 at a concrete identifier. -/
theorem c7_amended_witness :
    coreAccepts "project.developers" = true ∨ '-' ∈ ("project.developers" : String).data :=
  c7_amended.2.2.2.2.2.2 "project.developers" (by decide)

/-! ## fix_config.py, FixConfig.__fix_configuration

The three target branches (config.xml lines 470 to 506, Makefile lines 509
to 544, MANIFEST.MF lines 547 to 574).  A WriteEvent records one
whole-file write performed through FileUtils.write_to_file; an operation
that raises or returns early performs none. -/

/-- One whole-file write: target path and the exact content written. -/
structure WriteEvent where
  path : String
  content : String
  deriving Repr, DecidableEq

/-- FileUtils.write_to_file over a list with the default newline argument:
every element is written followed by os.linesep (a line feed on the build
host). -/
def joinLinesNl (ls : List String) : String :=
  String.join (ls.map (fun l => l ++ "\n"))

/-- The dict built at lines 476 to 477: one entry per distinct placeholder
key in first-occurrence order, each looked up by plain subscript in the
namespace — the first key absent from the namespace raises KeyError. -/
def xmlTargetData (ns : List (String × String)) :
    List String → Except PyErr (List (String × String))
  | [] => .ok []
  | k :: ks =>
    match ns.lookup k with
    | none => .error (.keyError k)
    | some v =>
      match xmlTargetData ns ks with
      | .error e => .error e
      | .ok rest => .ok ((k, v) :: rest.filter (fun p => p.1 ≠ k))

/-- The replacement-string processing of re.sub: escape sequences in the
value are interpreted (a double backslash collapses, backslash-n-t-r
become control characters) and any other backslash escape — including
group references, meaningless for this groupless pattern — raises
re.error.  Values free of backslashes pass through verbatim. -/
def processRepl : List Char → Except PyErr (List Char)
  | [] => .ok []
  | c :: rest =>
    if c = '\\' then
      match rest with
      | [] => .error .badEscape
      | e :: rest2 =>
        if e = '\\' then ('\\' :: ·) <$> processRepl rest2
        else if e = 'n' then ('\n' :: ·) <$> processRepl rest2
        else if e = 't' then ('\t' :: ·) <$> processRepl rest2
        else if e = 'r' then ('\x0d' :: ·) <$> processRepl rest2
        else .error .badEscape
    else (c :: ·) <$> processRepl rest

/-- The substitution loop at lines 479 to 480: one sequential re.sub pass
per distinct key, each over the result of the previous pass — so a value
substituted early is itself scanned for the later keys. -/
def xmlSubstLoop (td : List (String × String)) (s : List Char) : Except PyErr (List Char) :=
  match td with
  | [] => .ok s
  | (k, v) :: rest =>
    match processRepl v.data with
    | .error e => .error e
    | .ok repl => xmlSubstLoop rest (subScan eqWild (placeholderPat k.data) repl s)

/-- Python list indexing: negative indices count from the end; out of
range is None here (Python raises IndexError; unreachable for the
prettified XML handled by the collapse loop). -/
def pyIntIdx (n : Nat) (i : Int) : Option Nat :=
  let j := if i < 0 then i + n else i
  if 0 ≤ j ∧ j < n then some j.toNat else none

/-- bs_data[idx] += s of the collapse loop, on the working array (a slot
holds none once the line has been collapsed away). -/
def concatAt (arr : Array (Option String)) (i : Int) (s : String) : Array (Option String) :=
  match pyIntIdx arr.size i with
  | some j =>
    match arr.getD j none with
    | some x => arr.setD j (some (x ++ s))
    | none => arr
  | none => arr

/-- bs_data[idx] = None of the collapse loop. -/
def setNoneAt (arr : Array (Option String)) (i : Int) : Array (Option String) :=
  match pyIntIdx arr.size i with
  | some j => arr.setD j none
  | none => arr

/-- One iteration of the collapse loop (lines 489 to 499).  The element
inspected is the original line at idx: the loop only ever mutates
positions at or before the current index, so each iteration of the Python
enumerate reads the pristine value. -/
def collapseStep (orig : Array String) (st : Array (Option String) × Array String × Nat)
    (idx : Nat) : Array (Option String) × Array String × Nat :=
  let (arr, fixedData, i) := st
  let element := orig.getD idx ""
  if pyStartsWith "<?" element || pyStartsWith "<conf" element ||
      pyStartsWith "</conf" element then
    st
  else if !(pyStartsWith "<" (pyStrip element)) then
    (arr, fixedData.push (pyStrip element), i)
  else if fixedData.size ≠ 0 && pyStartsWith "</" (pyStrip element) then
    let fixedData' :=
      fixedData.setD (fixedData.size - 1)
        (fixedData.getD (fixedData.size - 1) "" ++ pyStrip element)
    let arr1 := concatAt arr ((idx : Int) - 2) (fixedData'.getD i "")
    let arr2 := setNoneAt (setNoneAt arr1 (idx : Int)) ((idx : Int) - 1)
    (arr2, fixedData', i + 1)
  else
    st

/-- Lines 484 to 501: append a line separator to the first prettified
line, run the collapse loop, then drop the collapsed (None) and empty
entries.  (On an empty list Python would raise IndexError at bs_data[0];
the prettifier never returns one.) -/
def xmlCollapse (ls : List String) : List String :=
  match ls with
  | [] => []
  | l0 :: rest =>
    let orig := ((l0 ++ "\n") :: rest).toArray
    let res := (List.range orig.size).foldl (collapseStep orig) (orig.map some, #[], 0)
    (res.1.toList.filterMap id).filter (fun s => s ≠ "")

/-- The config.xml branch, lines 470 to 506: collect the placeholder keys
of the template, resolve each in the namespace (KeyError aborts the
branch before any write), run the sequential substitution, hand the text
to the external bs4 prettifier (the pretty parameter stands for
re-parsing plus prettify with 4-space indent), split on os.linesep and
collapse.  Returns the lines passed to the final write. -/
def fixConfigXml (pretty : String → String) (template : String)
    (ns : List (String × String)) : Except PyErr (List String) :=
  match xmlTargetData ns (findKeys fcKeyChar template) with
  | .error e => .error e
  | .ok td =>
    match xmlSubstLoop td template.data with
    | .error e => .error e
    | .ok substituted => .ok (xmlCollapse (pySplitSep '\n' (pretty ⟨substituted⟩)))

/-- The writes of the config.xml branch.  currentOutput is the present
content of the output file target/classes/configuration/config.xml; the
branch never reads it and performs its write unconditionally on success —
there is no up-to-date comparison in this branch. -/
def fixConfigXmlWrites (pretty : String → String) (template : String)
    (ns : List (String × String)) (currentOutput : String) : List WriteEvent :=
  match fixConfigXml pretty template ns with
  | .error _ => []
  | .ok ls => [⟨"target/classes/configuration/config.xml", joinLinesNl ls⟩]

/-! ### The Makefile branch -/

/-- Whether the regex at line 517 (caret version backslash-s-star, a
nonempty run of colon-equals-bar, backslash-s-star, lazy anything,
anchored at the end) matches a lowered stripped line: the line starts
with the word version, then optional whitespace, then at least one
delimiter character.  When it matches, group(0) is the whole line. -/
def mkLineMatches (s : String) : Bool :=
  pyStartsWith "version" s &&
    (match (s.data.drop 7).dropWhile pyIsWs with
     | c :: _ => c = ':' || c = '=' || c = '|'
     | [] => false)

/-- Line 292 to 294: the rebuilt version line — the first two whitespace
tokens of the upper-cased match joined with single spaces, a space, and
the resolved version. -/
def mkNewVersion (matched : String) (fixed : String) : String :=
  pyJoin " " ((pySplitWs (pyUpper matched)).take 2) ++ " " ++ fixed

/-- The search loop of __get_version (lines 288 to 295): first line whose
lowered stripped text matches the version regex. -/
def mkFindAux : List String → Nat → Option (Nat × String)
  | [], _ => none
  | l :: ls, i =>
    if mkLineMatches (pyLower (pyStrip l)) then some (i, l) else mkFindAux ls (i + 1)

/-- FixConfig.__get_version with a line list: the stripped original line,
the rebuilt line and its index.  An empty list raises ValueError; when no
line matches, the index stays -99 and the closing subscript
list_data[-99] raises IndexError for the short build files at hand. -/
def getVersionInfo (listData : List String) (cfg : List (String × String)) :
    Except PyErr (String × String × Nat) :=
  if listData.isEmpty then
    .error (.valueError "List data cannot be empty")
  else
    match mkFindAux listData 0 with
    | none => .error .indexError
    | some (i, line) =>
      .ok (pyStrip line, mkNewVersion (pyLower (pyStrip line)) (fixedVersionOf cfg), i)

/-- Outcome of the Makefile branch. -/
inductive MkOutcome where
  | err (e : PyErr)
  | upToDate
  | restart (newLines : List String)
  deriving Repr, DecidableEq

/-- The Makefile branch, lines 509 to 544: when the stripped declaration
line already equals the rebuilt line the branch reports up-to-date and
returns; otherwise it writes the file with the declaration line replaced
(write_to_file with newline disabled: the lines, which keep their own
separators, are written verbatim) and then calls sys.exit(-1). -/
def makefileBranch (lines : List String) (cfg : List (String × String)) : MkOutcome :=
  match getVersionInfo lines cfg with
  | .error e => .err e
  | .ok (old, nv, i) => if old = nv then .upToDate else .restart (lines.set i (nv ++ "\n"))

/-- The exit status the Makefile branch requests: sys.exit(-1) after a
rewrite, nothing otherwise. -/
def mkExit : MkOutcome → Option Int
  | .restart _ => some (-1)
  | _ => none

/-- The writes of the Makefile branch. -/
def mkWrites : MkOutcome → List WriteEvent
  | .restart ls => [⟨"Makefile", String.join ls⟩]
  | _ => []

/-! ### The MANIFEST.MF branch -/

/-- The manifest f-string of lines 548 to 555, with each dict.get rendering
None for an absent key. -/
def manifestTemplate (cfg : List (String × String)) : String :=
  "\n            Manifest-Version: 1.2" ++
  "\n            Built-By: " ++ pyFStr (pyDictGet? cfg "author.name") ++
  "\n            License-File: LICENSE" ++
  "\n            Main-Class: " ++ pyFStr (pyDictGet? cfg "package.mainClass") ++
  "\n            Program-Name: " ++ pyFStr (pyDictGet? cfg "package.name") ++
  "\n            Program-Version: v" ++ fixedVersionOf cfg ++
  "\n            "

/-- Line 556: the f-string split into lines, falsy (empty) entries
dropped, each stripped, and the final indentation-only line removed. -/
def manifestContents (cfg : List (String × String)) : List String :=
  (((pySplitLines (manifestTemplate cfg)).filter (fun l => l ≠ "")).map pyStrip).dropLast

/-- Outcome of the MANIFEST.MF branch. -/
inductive MfOutcome where
  | upToDate
  | written (ls : List String)
  deriving Repr, DecidableEq

/-- The MANIFEST.MF branch, lines 547 to 574: compare the rebuilt contents
with the stripped current file lines; equal means up-to-date and no
write, otherwise the rebuilt contents are written. -/
def manifestBranch (cfg : List (String × String)) (currentLines : List String) : MfOutcome :=
  if manifestContents cfg = currentLines.map pyStrip then .upToDate
  else .written (manifestContents cfg)

/-- The writes of the MANIFEST.MF branch. -/
def mfWrites : MfOutcome → List WriteEvent
  | .upToDate => []
  | .written ls => [⟨"META-INF/MANIFEST.MF", joinLinesNl ls⟩]

/-- The MANIFEST.MF branch contains no sys.exit call. -/
def mfExit : MfOutcome → Option Int :=
  fun _ => none

/-- The __main__ driver of fix_version.py (lines 139 to 158): fix the
manifest (result discarded), then the Makefile; when the Makefile fix
reports a change, raise and exit with status -1, else finish normally. -/
def fvDriverExits (manifestLines makefileLines : List String) (cfgVersion : String) :
    Except PyErr (Option Int) :=
  match fix_version manifestLines cfgVersion "Version" with
  | .error e => .error e
  | .ok _ =>
    match fix_version makefileLines cfgVersion "VERSION" with
    | .error e => .error e
    | .ok r => .ok (if r.1 then some (-1) else none)

example : manifestContents [] =
    ["Manifest-Version: 1.2", "Built-By: None", "License-File: LICENSE",
     "Main-Class: None", "Program-Name: None", "Program-Version: vnull-null.null"] := by decide
example : makefileBranch ["VERSION := 1.1.9\n"]
      [("package.version.core", "1.2.0"), ("package.releaseType", "release")] =
    .restart ["VERSION := 1.2.0\n"] := by decide
example : makefileBranch ["VERSION := 1.2.0\n"]
      [("package.version.core", "1.2.0"), ("package.releaseType", "release")] =
    .upToDate := by decide
example : fixConfigXml id "<a>x</a>" [] = .ok ["<a>x</a>\n"] := by decide

/-! ## Stripping lemmas

pyStripL is the composition of a left and a right whitespace strip; the
facts needed below are that appending a line feed does not change the
stripped value and that stripping is idempotent. -/

theorem pyStripL_eq_rdropWhile (l : List Char) :
    pyStripL l = List.rdropWhile pyIsWs (l.dropWhile pyIsWs) := by
  simp [pyStripL, List.rdropWhile]

theorem pyStripL_append_nl (l : List Char) :
    pyStripL (l ++ ['\n']) = pyStripL l := by
  rw [pyStripL_eq_rdropWhile, pyStripL_eq_rdropWhile]
  rw [List.dropWhile_append]
  by_cases h : (l.dropWhile pyIsWs).isEmpty
  · simp only [h, if_true]
    have hall : ∀ x ∈ l.dropWhile pyIsWs, pyIsWs x = true := by
      rw [List.isEmpty_iff] at h
      simp [h]
    rw [List.isEmpty_iff] at h
    rw [h]
    simp [List.dropWhile, pyIsWs, List.rdropWhile]
  · simp only [h, if_false]
    exact List.rdropWhile_concat_pos _ _ _ (by decide)

theorem pyStripL_idem (l : List Char) :
    pyStripL (pyStripL l) = pyStripL l := by
  rw [pyStripL_eq_rdropWhile, pyStripL_eq_rdropWhile]
  have key : ∀ u : List Char, (∀ h : 0 < u.length, ¬ pyIsWs (u.get ⟨0, h⟩) = true) →
      (List.rdropWhile pyIsWs u).dropWhile pyIsWs = List.rdropWhile pyIsWs u := by
    intro u hhead
    cases hrd : List.rdropWhile pyIsWs u with
    | nil => simp
    | cons a w' =>
      have hpre : a :: w' <+: u := hrd ▸ List.rdropWhile_prefix pyIsWs u
      obtain ⟨t, ht⟩ := hpre
      have hu2 : u = a :: (w' ++ t) := by rw [← ht]; simp
      subst hu2
      have hna := hhead (by simp)
      simp only [List.get] at hna
      rw [List.dropWhile_cons]
      simp [hna]
  have hhead : ∀ h : 0 < (List.dropWhile pyIsWs l).length,
      ¬ pyIsWs ((List.dropWhile pyIsWs l).get ⟨0, h⟩) = true := fun h =>
    List.dropWhile_get_zero_not pyIsWs l h
  rw [key (List.dropWhile pyIsWs l) hhead, List.rdropWhile_idempotent]

theorem pyStrip_strip_nl (s : String) :
    pyStrip (pyStrip s ++ "\n") = pyStrip s := by
  have hd : (pyStrip s ++ "\n").data = pyStripL s.data ++ ['\n'] := by
    rw [String.data_append]; rfl
  show (⟨pyStripL (pyStrip s ++ "\n").data⟩ : String) = pyStrip s
  rw [hd, pyStripL_append_nl, pyStripL_idem]
  rfl

/-! ## Claim C2: missing key is fatal and nothing is written -/

theorem xmlTargetData_missing (ns : List (String × String)) :
    ∀ keys : List String, (∃ k ∈ keys, ns.lookup k = none) →
    ∃ k, ns.lookup k = none ∧ xmlTargetData ns keys = .error (.keyError k) := by
  intro keys
  induction keys with
  | nil => rintro ⟨k, hk, -⟩; simp at hk
  | cons k ks ih =>
    rintro ⟨k', hk', hnone⟩
    rcases List.mem_cons.mp hk' with rfl | hmem
    · exact ⟨k', hnone, by simp [xmlTargetData, hnone]⟩
    · cases hl : ns.lookup k with
      | none => exact ⟨k, hl, by simp [xmlTargetData, hl]⟩
      | some v =>
        obtain ⟨k2, h2, herr⟩ := ih ⟨k', hmem, hnone⟩
        exact ⟨k2, h2, by simp [xmlTargetData, hl, herr]⟩

/-- Claim C2, confirmed.  Whenever the config.xml template contains a
placeholder (as recognized by that branch's own pattern) whose key is
absent from the namespace, the dict-building loop raises KeyError before
the substitution, the prettify step and the write are ever reached, so
the branch fails with a missing-key error and no output file is written —
for any prettifier, any template and any current output content. -/
theorem c2_missing_key_fatal (pretty : String → String) (template : String)
    (ns : List (String × String))
    (h : ∃ k ∈ findKeys fcKeyChar template, ns.lookup k = none) :
    (∃ k, ns.lookup k = none ∧
      fixConfigXml pretty template ns = .error (.keyError k)) ∧
    ∀ cur, fixConfigXmlWrites pretty template ns cur = [] := by
  obtain ⟨k, hk, herr⟩ := xmlTargetData_missing ns (findKeys fcKeyChar template) h
  refine ⟨⟨k, hk, ?_⟩, fun cur => ?_⟩
  · simp [fixConfigXml, herr]
  · simp [fixConfigXmlWrites, fixConfigXml, herr]

/-- Witness for claim C2: a template with the single placeholder
missing.key and an empty namespace. -/
theorem c2_missing_key_fatal_witness :
    (∃ k, ([] : List (String × String)).lookup k = none ∧
      fixConfigXml id "<name>$\x7bmissing.key\x7d</name>" [] = .error (.keyError k)) ∧
    ∀ cur, fixConfigXmlWrites id "<name>$\x7bmissing.key\x7d</name>" [] cur = [] :=
  c2_missing_key_fatal id "<name>$\x7bmissing.key\x7d</name>" []
    ⟨"missing.key", by decide, by decide⟩

/-! ## Claim C8: the restart exit of the build-file fix -/

/-- Claim C8, confirmed.  In fix_config.py, a successful version-line
change in the Makefile branch ends in sys.exit(-1), a non-zero status;
the up-to-date case returns normally with no exit, and the MANIFEST.MF
branch never exits.  In fix_version.py's driver the same policy holds:
the process exits with -1 exactly when the Makefile fix reports a change,
regardless of what the earlier manifest fix did. -/
theorem c8_restart_exit :
    (∀ lines cfg out, makefileBranch lines cfg = .restart out →
      mkExit (makefileBranch lines cfg) = some (-1) ∧ (-1 : Int) ≠ 0) ∧
    (∀ lines cfg, makefileBranch lines cfg = .upToDate →
      mkExit (makefileBranch lines cfg) = none) ∧
    (∀ cfg cur, mfExit (manifestBranch cfg cur) = none) ∧
    (∀ ml bl v r s, fix_version ml v "Version" = .ok r →
      fix_version bl v "VERSION" = .ok s →
      fvDriverExits ml bl v = .ok (if s.1 then some (-1) else none)) := by
  refine ⟨fun lines cfg out h => ⟨by rw [h]; rfl, by decide⟩,
          fun lines cfg h => by rw [h]; rfl,
          fun cfg cur => rfl,
          fun ml bl v r s h1 h2 => by simp [fvDriverExits, h1, h2]⟩

/-- Witness for claim C8: a manifest whose version line is rewritten does
not exit by itself, while the Makefile rewrite exits with -1. -/
theorem c8_restart_exit_witness :
    fvDriverExits ["Version 1.1.9\n"] ["VERSION := 1.1.9\n"] "1.2.0" = .ok (some (-1)) := by
  have h := c8_restart_exit.2.2.2 ["Version 1.1.9\n"] ["VERSION := 1.1.9\n"] "1.2.0"
    (true, ["Version 1.2.0\n"]) (true, ["VERSION := 1.2.0\n"]) (by decide) (by decide)
  simpa using h

/-! ## Claim C1: idempotence and the up-to-date check -/

/-- Claim C1, counterexample.  The claim says that for each of the three
targets, a resolved content byte-identical to the current target content
means the operation reports up-to-date and writes nothing.  The config.xml
branch has no such comparison: it never reads its output file and writes
unconditionally.  Concretely, with a placeholder-free template (all
placeholders trivially resolvable), identity prettifier and the current
output already holding the resolved content, the branch still performs the
write. -/
theorem c1_counterexample :
    fixConfigXmlWrites id "<a>x</a>" [] "<a>x</a>\n\n" =
      [⟨"target/classes/configuration/config.xml", "<a>x</a>\n\n"⟩] ∧
    ([⟨"target/classes/configuration/config.xml", "<a>x</a>\n\n"⟩] : List WriteEvent) ≠ [] := by
  constructor
  · decide
  · decide

/-- Claim C1, amended: the byte-identical-means-no-write rule holds for
the Makefile and MANIFEST.MF branches but not for the config.xml branch,
which writes unconditionally.  For the manifest: rewriting is idempotent —
after a write, running the branch again on the written file reports
up-to-date and writes nothing — and up-to-date holds exactly when the
stripped current lines equal the resolved contents.  For the Makefile:
the branch reports up-to-date (and performs no write) exactly when the
stripped declaration line already equals the rebuilt version line. -/
theorem manifestBranch_upToDate_iff (cfg : List (String × String)) (cur : List String) :
    manifestBranch cfg cur = .upToDate ↔ manifestContents cfg = cur.map pyStrip := by
  unfold manifestBranch
  split
  next hc => simp [hc]
  next hc => simp [hc]

theorem manifestBranch_written_eq (cfg : List (String × String)) (cur : List String)
    (ls : List String) (h : manifestBranch cfg cur = .written ls) :
    ls = manifestContents cfg := by
  unfold manifestBranch at h
  split at h
  next => simp at h
  next => simp only [MfOutcome.written.injEq] at h; exact h.symm

theorem makefileBranch_ok (lines : List String) (cfg : List (String × String))
    (old nv : String) (i : Nat) (h : getVersionInfo lines cfg = .ok (old, nv, i)) :
    makefileBranch lines cfg =
      if old = nv then .upToDate else .restart (lines.set i (nv ++ "\n")) := by
  unfold makefileBranch
  rw [h]

theorem c1_amended :
    (∀ cfg cur ls, manifestBranch cfg cur = .written ls →
      manifestBranch cfg (ls.map (fun l => l ++ "\n")) = .upToDate ∧
      mfWrites (manifestBranch cfg (ls.map (fun l => l ++ "\n"))) = []) ∧
    (∀ cfg cur, manifestBranch cfg cur = .upToDate ↔
      manifestContents cfg = cur.map pyStrip) ∧
    (∀ lines cfg old nv i, getVersionInfo lines cfg = .ok (old, nv, i) →
      ((makefileBranch lines cfg = .upToDate ↔ old = nv) ∧
       (old = nv → mkWrites (makefileBranch lines cfg) = []))) := by
  have hstr : ∀ (cfg : List (String × String)) (x : String),
      x ∈ manifestContents cfg → pyStrip (x ++ "\n") = x := by
    intro cfg x hx
    have hx' : x ∈ ((pySplitLines (manifestTemplate cfg)).filter (fun l => l ≠ "")).map pyStrip :=
      (List.dropLast_prefix _).subset hx
    obtain ⟨y, -, hy⟩ := List.mem_map.mp hx'
    rw [← hy]
    exact pyStrip_strip_nl y
  refine ⟨fun cfg cur ls h => ?_, manifestBranch_upToDate_iff, fun lines cfg old nv i h => ?_⟩
  · have hls : ls = manifestContents cfg := manifestBranch_written_eq cfg cur ls h
    have hmap : (ls.map (fun l => l ++ "\n")).map pyStrip = manifestContents cfg := by
      rw [hls, List.map_map]
      have hcg : (manifestContents cfg).map (pyStrip ∘ fun l => l ++ "\n") =
          (manifestContents cfg).map id :=
        List.map_congr_left (fun x hx => hstr cfg x hx)
      rw [hcg, List.map_id]
    have hup : manifestBranch cfg (ls.map (fun l => l ++ "\n")) = .upToDate :=
      (manifestBranch_upToDate_iff cfg _).mpr hmap.symm
    exact ⟨hup, by rw [hup]; rfl⟩
  · have hb := makefileBranch_ok lines cfg old nv i h
    constructor
    · rw [hb]
      by_cases he : old = nv
      · simp [he]
      · simp [he]
    · intro he
      rw [hb, if_pos he]
      rfl

/-- Witness for the amended claim C1: with an empty namespace and an
empty current manifest the branch writes, and a second run on the
written file is up-to-date with no write. -/
theorem c1_amended_witness :
    manifestBranch [] ((manifestContents []).map (fun l => l ++ "\n")) = .upToDate ∧
    mfWrites (manifestBranch [] ((manifestContents []).map (fun l => l ++ "\n"))) = [] :=
  c1_amended.1 [] [] (manifestContents []) (by decide)

/-! ## JMBuilder: the properties parser (jmbuilder/utils/utils.py)

JMProperties reads a manifest or properties file: strip every line,
remove comment lines, remove blank lines, split each remaining line at
the first equals sign (retrying with a colon when the first row did not
split), unpack the rows into keys and values (zip truncates to the
shortest row, and fewer than two columns raises ValueError chained from
JMParserError), strip both, and build the dict. -/

/-- remove_comments (lines 190 to 235): an empty contents list raises
ValueError, otherwise lines starting with the delimiter are dropped. -/
def remove_comments (contents : List String) (delim : String) : Except PyErr (List String) :=
  if contents.isEmpty then .error (.valueError "File contents cannot be empty")
  else .ok (contents.filter (fun l => !(pyStartsWith delim l)))

/-- remove_blanks (lines 239 to 274) with none=True: an empty contents
list raises ValueError, otherwise whitespace-only lines are dropped (the
line values here are never Python None). -/
def remove_blanks (contents : List String) : Except PyErr (List String) :=
  if contents.isEmpty then .error (.valueError "File contents cannot be empty")
  else .ok (contents.filter (fun l => pyStrip l ≠ ""))

/-- Python dict insertion: a later duplicate key overwrites the value in
place, keeping the first occurrence's position. -/
def pyDictUpsert (d : List (String × String)) (k v : String) : List (String × String) :=
  if d.any (fun p => p.1 = k) then d.map (fun p => if p.1 = k then (k, v) else p)
  else d ++ [(k, v)]

/-- dict(zip(keys, values)). -/
def pyDictFromPairs (ps : List (String × String)) : List (String × String) :=
  ps.foldl (fun d p => pyDictUpsert d p.1 p.2) []

/-- JMProperties.__init__ (lines 384 to 515) on the raw file lines. -/
def jmPropertiesInit (rawLines : List String) : Except PyErr (List (String × String)) :=
  match remove_comments (rawLines.map pyStrip) "#" with
  | .error e => .error e
  | .ok c1 =>
    match remove_blanks c1 with
    | .error e => .error e
    | .ok c2 =>
      let data0 := c2.map (pySplit1 '=')
      let data := if data0 ≠ [] ∧ (data0.headD []).length = 1 then c2.map (pySplit1 ':')
                  else data0
      if data.isEmpty then
        .error (.valueError "Unable to unpack keys and values")
      else if data.any (fun r => r.length = 1) then
        .error (.valueError "Unable to unpack keys and values")
      else
        .ok (pyDictFromPairs (data.map (fun r => (pyStrip (r.headD ""), pyStrip (r.getD 1 "")))))

example : jmPropertiesInit ["# c\n", "a = 1\n", "a = 2\n", "b: x\n"] =
    .error (.valueError "Unable to unpack keys and values") := by decide
example : jmPropertiesInit ["# c\n", "a = 1\n", "a = 2\n"] = .ok [("a", "2")] := by decide
example : jmPropertiesInit ["k1: v1\n", "k2: v2\n"] = .ok [("k1", "v1"), ("k2", "v2")] := by decide

/-! ## JMBuilder: JMRepairer (jmbuilder/core.py)

The parsed POM is reduced by JMRepairer.__init__ (lines 322 to 336) to a
fixed dict of optional strings plus the build timestamp.  The getter
chain (PomParser over bs4) is the external parser; its extracted fields
form the PomData record.  The now parameter is the strftime-formatted
current UTC clock reading, an external input of the constructor. -/

/-- The fields JMRepairer reads from the parsed POM (None when the
descriptor lacks the node). -/
structure PomData where
  name : Option String
  version : Option String
  url : Option String
  groupId : Option String
  artifactId : Option String
  inceptionYear : Option String
  devName : Option String
  devUrl : Option String
  licenseName : Option String
  licenseUrl : Option String
  licenseFile : Option String
  mainClass : Option String
  deriving Repr, DecidableEq

/-- JMRepairer._pom_items: the extracted namespace, in the literal key
order of the constructor, with maven.build.timestamp stamped from the
clock reading. -/
def pomItems (d : PomData) (now : String) : List (String × Option String) :=
  [("project.name", d.name),
   ("project.version", d.version),
   ("project.url", d.url),
   ("project.groupId", d.groupId),
   ("project.artifactId", d.artifactId),
   ("project.inceptionYear", d.inceptionYear),
   ("project.developers[0].name", d.devName),
   ("project.developers[0].url", d.devUrl),
   ("project.licenses[0].name", d.licenseName),
   ("project.licenses[0].url", d.licenseUrl),
   ("package.licenseFile", d.licenseFile),
   ("package.mainClass", d.mainClass),
   ("maven.build.timestamp", some now)]

/-- Subscript into the pom-items dict (the literal keys used by
fix_manifest are always present). -/
def pomGet (pom : List (String × Option String)) (k : String) : Option String :=
  (pom.lookup k).getD none

/-- retriever.setup's cached namespace: the timestamp entry is deleted
before the JSON serialization (which also sorts the keys; sorting equal
dicts serializes them equally, so determinism is decided by this list). -/
def setupItems (d : PomData) (now : String) : List (String × Option String) :=
  (pomItems d now).filter (fun p => p.1 ≠ "maven.build.timestamp")

/-- The anchored placeholder probe of fix_manifest and fix_properties:
self._val_pattern.match(val) succeeds only when the value begins with a
whole placeholder token; the key inside is returned, anything after the
closing brace is ignored. -/
def coreAnchoredKey (val : String) : Option String :=
  match tryKeyAt coreKeyChar val.data with
  | some (k, _) => some ⟨k⟩
  | none => none

/-- One entry of the fix_manifest loop (core.py lines 408 to 418): a
value that does not begin with a placeholder is left alone; otherwise the
ID key gets groupId colon artifactId, and any other key whose inner
placeholder key is present in the pom items has its whole value replaced
by the resolved value (a None value prints as None in the written line;
the rendering is applied here, observationally identical). -/
def fixManifestEntry (pom : List (String × Option String)) (entry : String × String) :
    String × String :=
  match coreAnchoredKey entry.2 with
  | none => entry
  | some nv =>
    if entry.1 = "ID" then
      (entry.1, pyFStr (pomGet pom "project.groupId") ++ ":" ++
        pyFStr (pomGet pom "project.artifactId"))
    else if (pom.lookup nv).isSome then
      (entry.1, pyFStr (pomGet pom nv))
    else
      entry

/-- JMRepairer.fix_manifest (lines 369 to 423): parse the input manifest
with JMProperties (errors propagate, nothing written), transform each
entry, and write the key-colon-value lines plus one trailing empty line. -/
def fix_manifest (pom : List (String × Option String)) (rawLines : List String)
    (outfile : String) : Except PyErr (List WriteEvent) :=
  match jmPropertiesInit rawLines with
  | .error e => .error e
  | .ok props =>
    .ok [⟨outfile,
      joinLinesNl (((props.map (fixManifestEntry pom)).map
        (fun p => p.1 ++ ": " ++ p.2)) ++ [""])⟩]

/-- One entry of the fix_properties loop (lines 465 to 472): like the
manifest loop but with no ID special case. -/
def fixPropertiesEntry (pom : List (String × Option String)) (entry : String × String) :
    String × String :=
  match coreAnchoredKey entry.2 with
  | none => entry
  | some nv =>
    if (pom.lookup nv).isSome then (entry.1, pyFStr (pomGet pom nv))
    else entry

/-- JMRepairer.fix_properties (lines 425 to 477): parse, transform, write
key equals value lines. -/
def fix_properties (pom : List (String × Option String)) (rawLines : List String)
    (outfile : String) : Except PyErr (List WriteEvent) :=
  match jmPropertiesInit rawLines with
  | .error e => .error e
  | .ok props =>
    .ok [⟨outfile,
      joinLinesNl ((props.map (fixPropertiesEntry pom)).map
        (fun p => p.1 ++ " = " ++ p.2))⟩]

/-- Modelled from the spec: literal substring substitution of every
occurrence of the pattern by the replacement value inserted verbatim,
scanning left to right over the target text (spec section 4.4, step 3).
Stated over character lists with the same fuel discipline as the
implementation-side scanner. -/
def specReplaceAllAux (pat repl : List Char) : Nat → List Char → List Char
  | 0, s => s
  | _ + 1, [] => []
  | fuel + 1, c :: cs =>
    if pat ≠ [] ∧ pyStartsWithL pat (c :: cs) then
      repl ++ specReplaceAllAux pat repl fuel ((c :: cs).drop pat.length)
    else
      c :: specReplaceAllAux pat repl fuel cs

/-- Modelled from the spec: replace every occurrence of pat by repl. -/
def specReplaceAll (pat repl s : List Char) : List Char :=
  specReplaceAllAux pat repl s.length s

/-! ## Claim C6: how placeholders are actually substituted -/

/-- A concrete pom-items dict with a version, for the counterexample. -/
def pomC : List (String × Option String) :=
  pomItems ⟨none, some "1.2.0", none, some "com.mitsuki", some "jmatrix",
    none, none, none, none, none, none, none⟩ "2024-01-01T00:00:00Z"

/-- Claim C6, counterexample.  The claim says every occurrence of each
placeholder is replaced with the namespace value inserted verbatim with no
recursive re-resolution, wherever it appears, on all rewrite paths.  On
the XML path the substitutions are applied sequentially, so the value of
k1 — the literal placeholder token for k2 — is re-resolved to v instead
of surviving verbatim.  On the manifest path the probe is an anchored
match: a placeholder after the first character of the value is not
replaced at all, and when the value does begin with a placeholder the
whole value is replaced, discarding the suffix. -/
theorem c6_counterexample :
    (fixConfigXml id "$\x7bk1\x7d $\x7bk2\x7d" [("k1", "$\x7bk2\x7d"), ("k2", "v")] =
        .ok ["v v\n"] ∧
      ("v v\n" : String) ≠ "$\x7bk2\x7d v\n") ∧
    (fixManifestEntry pomC ("Program-Version", "v$\x7bproject.version\x7d") =
        ("Program-Version", "v$\x7bproject.version\x7d") ∧
      ("v$\x7bproject.version\x7d" : String) ≠ "v1.2.0") ∧
    (fixManifestEntry pomC ("X", "$\x7bproject.version\x7d-beta") = ("X", "1.2.0") ∧
      ("1.2.0" : String) ≠ "1.2.0-beta") := by
  exact ⟨⟨by decide, by decide⟩, ⟨by decide, by decide⟩, ⟨by decide, by decide⟩⟩

theorem processRepl_no_backslash :
    ∀ l : List Char, (∀ c ∈ l, c ≠ '\\') → processRepl l = .ok l := by
  intro l
  induction l with
  | nil => intro h; rfl
  | cons c cs ih =>
    intro h
    have hc : c ≠ '\\' := h c (by simp)
    rw [processRepl.eq_def]
    simp only []
    rw [if_neg hc, ih (fun x hx => h x (by simp [hx]))]
    rfl

theorem matchPat_lit_of_no_dot (pat : List Char) (hdot : ∀ p ∈ pat, p ≠ '.') :
    ∀ s, matchPat eqWild pat s = matchPat eqLit pat s := by
  induction pat with
  | nil => intro s; rfl
  | cons p ps ih =>
    intro s
    cases s with
    | nil => rfl
    | cons c cs =>
      have hp : p ≠ '.' := hdot p (by simp)
      have hw : eqWild p c = eqLit p c := by
        simp [eqWild, eqLit, hp]
      simp only [matchPat, hw]
      by_cases h : eqLit p c = true
      · simp [h, ih (fun x hx => hdot x (by simp [hx]))]
      · simp [h]

theorem matchPat_eqLit_eq (pat : List Char) :
    ∀ s, matchPat eqLit pat s =
      if pyStartsWithL pat s then some (s.drop pat.length) else none := by
  induction pat with
  | nil => intro s; simp [matchPat, pyStartsWithL]
  | cons p ps ih =>
    intro s
    cases s with
    | nil => simp [matchPat, pyStartsWithL]
    | cons c cs =>
      simp only [matchPat, pyStartsWithL, eqLit]
      by_cases h : p = c
      · simp [h, ih cs, List.length_cons]
      · simp [h]

theorem subScanAux_eq_spec (pat repl : List Char) (hne : pat ≠ [])
    (hdot : ∀ p ∈ pat, p ≠ '.') :
    ∀ fuel s, subScanAux eqWild pat repl fuel s = specReplaceAllAux pat repl fuel s := by
  intro fuel
  induction fuel with
  | zero => intro s; rfl
  | succ f ih =>
    intro s
    cases s with
    | nil => rfl
    | cons c cs =>
      simp only [subScanAux, specReplaceAllAux]
      rw [matchPat_lit_of_no_dot pat hdot, matchPat_eqLit_eq]
      by_cases hs : pyStartsWithL pat (c :: cs) = true
      · have hie : pat.isEmpty = false := by
          cases pat with
          | nil => exact absurd rfl hne
          | cons a l => rfl
        simp [hs, hie, hne, ih]
      · simp only [Bool.not_eq_true] at hs
        simp [hs, ih]

/-- Claim C6, amended: on the XML path a single-key substitution step
does replace every occurrence of the placeholder — duplicates included,
wherever it appears — with the value inserted verbatim, provided the key
is free of regex-wildcard dots and the value free of backslash escapes
(it coincides with the spec's literal replace-all); but the steps for
several keys are applied sequentially, so earlier-inserted values are
re-scanned for later keys (counterexample).  On the manifest and
properties paths, a value not beginning with a placeholder is left
untouched, and a value beginning with one has the entire value replaced
by the resolved value. -/
theorem c6_amended :
    (∀ (k v : String) (s : List Char),
      (∀ c ∈ k.data, c ≠ '.') → (∀ c ∈ v.data, c ≠ '\\') →
      xmlSubstLoop [(k, v)] s = .ok (specReplaceAll (placeholderPat k.data) v.data s)) ∧
    (∀ pom key val, coreAnchoredKey val = none → fixManifestEntry pom (key, val) = (key, val)) ∧
    (∀ pom key val nv, coreAnchoredKey val = some nv → key ≠ "ID" →
      (pom.lookup nv).isSome = true →
      fixManifestEntry pom (key, val) = (key, pyFStr (pomGet pom nv))) := by
  refine ⟨fun k v s hk hv => ?_, fun pom key val h => ?_, fun pom key val nv h hid hmem => ?_⟩
  · have hdotpat : ∀ p ∈ placeholderPat k.data, p ≠ '.' := by
      intro p hp
      simp only [placeholderPat, List.mem_cons, List.mem_append, List.mem_singleton,
        List.not_mem_nil, or_false] at hp
      rcases hp with rfl | rfl | hp | rfl
      · decide
      · decide
      · exact hk p hp
      · decide
    have hnep : placeholderPat k.data ≠ [] := by simp [placeholderPat]
    simp only [xmlSubstLoop, processRepl_no_backslash v.data hv]
    show Except.ok (subScan eqWild (placeholderPat k.data) v.data s) = _
    rw [subScan, subScanAux_eq_spec (placeholderPat k.data) v.data hnep hdotpat]
    rfl
  · simp [fixManifestEntry, h]
  · simp [fixManifestEntry, h, hid, hmem, pomGet]

/-- Witness for the amended claim C6: one key, two occurrences, replaced
everywhere with the literal value. -/
theorem c6_amended_witness :
    xmlSubstLoop [("key", "VAL")] ("$\x7bkey\x7d x $\x7bkey\x7d" : String).data =
      .ok (specReplaceAll (placeholderPat ("key" : String).data) ("VAL" : String).data
        ("$\x7bkey\x7d x $\x7bkey\x7d" : String).data) :=
  c6_amended.1 "key" "VAL" ("$\x7bkey\x7d x $\x7bkey\x7d" : String).data
    (by decide) (by decide)

/-! ## Claim C9: determinism of the extracted namespace -/

/-- A concrete extracted descriptor for the counterexample. -/
def pomD0 : PomData :=
  ⟨some "jmatrix", some "1.2.0", none, some "com.mitsuki.jmatrix", some "jmatrix",
   some "2023", some "Ryuu Mitsuki", none, none, none, none,
   some "com.mitsuki.jmatrix.Main"⟩

/-- Claim C9, counterexample.  The claim says two extractions over an
unmodified descriptor yield byte-identical namespaces including the
maven.build.timestamp entry; but that entry is stamped from the wall
clock at extraction time, so two runs one second apart differ. -/
theorem c9_counterexample :
    pomItems pomD0 "2024-01-01T00:00:00Z" ≠ pomItems pomD0 "2024-01-01T00:00:01Z" := by
  decide

/-- Claim C9, amended: two extractions over an unmodified descriptor
agree on every entry except maven.build.timestamp, which carries the
clock reading of each run — the namespaces are identical exactly when the
two formatted timestamps coincide.  The namespace that retriever.setup
caches to disk deletes the timestamp entry first and is therefore fully
deterministic. -/
theorem c9_amended :
    (∀ (d : PomData) (now1 now2 : String), setupItems d now1 = setupItems d now2) ∧
    (∀ (d : PomData) (now1 now2 : String),
      (pomItems d now1).filter (fun p => p.1 ≠ "maven.build.timestamp") =
        (pomItems d now2).filter (fun p => p.1 ≠ "maven.build.timestamp")) ∧
    (∀ (d : PomData) (now1 now2 : String),
      pomItems d now1 = pomItems d now2 ↔ now1 = now2) := by
  refine ⟨fun d n1 n2 => rfl, fun d n1 n2 => rfl, fun d n1 n2 => ?_⟩
  constructor
  · intro h
    simpa [pomItems] using h
  · intro h
    rw [h]

/-! ## Claim C10: empty or comment-only property files -/

/-- Claim C10, confirmed.  A properties file whose lines are all comments
or blanks (including the empty file) never produces an empty mapping:
JMProperties raises — ValueError from remove_comments or remove_blanks
when the surviving list is empty, or the unpack ValueError (chained from
JMParserError in the source) when zip gets no rows — and consequently
fix_manifest and fix_properties propagate the error and write nothing. -/
theorem c10_empty_properties_error (rawLines : List String)
    (h : ∀ l ∈ rawLines, pyStrip l = "" ∨ pyStartsWith "#" (pyStrip l) = true) :
    (∃ e, jmPropertiesInit rawLines = .error e) ∧
    (∀ pom out, ∃ e, fix_manifest pom rawLines out = .error e) ∧
    (∀ pom out, ∃ e, fix_properties pom rawLines out = .error e) := by
  have hc1mem : ∀ x ∈ (rawLines.map pyStrip).filter (fun l => !(pyStartsWith "#" l)), x = "" := by
    intro x hx
    obtain ⟨hxm, hxf⟩ := List.mem_filter.mp hx
    obtain ⟨l, hl, rfl⟩ := List.mem_map.mp hxm
    rcases h l hl with h1 | h2
    · exact h1
    · rw [h2] at hxf
      simp at hxf
  have hmain : ∃ e, jmPropertiesInit rawLines = .error e := by
    by_cases h0 : rawLines.map pyStrip = []
    · refine ⟨.valueError "File contents cannot be empty", ?_⟩
      simp [jmPropertiesInit, remove_comments, h0]
    · have hrc : remove_comments (rawLines.map pyStrip) "#" =
          .ok ((rawLines.map pyStrip).filter (fun l => !(pyStartsWith "#" l))) := by
        unfold remove_comments
        rw [if_neg (by simpa [List.isEmpty_iff] using h0)]
      by_cases h1 : (rawLines.map pyStrip).filter (fun l => !(pyStartsWith "#" l)) = []
      · refine ⟨.valueError "File contents cannot be empty", ?_⟩
        simp only [jmPropertiesInit, hrc, h1]
        simp [remove_blanks]
      · have hc2 : ((rawLines.map pyStrip).filter
            (fun l => !(pyStartsWith "#" l))).filter (fun l => pyStrip l ≠ "") = [] := by
          rw [List.filter_eq_nil_iff]
          intro a ha
          rw [hc1mem a ha]
          simp [pyStrip, pyStripL]
        have hrb : remove_blanks ((rawLines.map pyStrip).filter
            (fun l => !(pyStartsWith "#" l))) = .ok [] := by
          unfold remove_blanks
          rw [if_neg (by simpa [List.isEmpty_iff] using h1)]
          rw [hc2]
        refine ⟨.valueError "Unable to unpack keys and values", ?_⟩
        simp only [jmPropertiesInit, hrc, hrb]
        simp
  obtain ⟨e, he⟩ := hmain
  refine ⟨⟨e, he⟩, fun pom out => ⟨e, ?_⟩, fun pom out => ⟨e, ?_⟩⟩
  · simp [fix_manifest, he]
  · simp [fix_properties, he]

/-- Witness for claim C10: a file of one comment line, one blank line and
one empty line raises and writes nothing. -/
theorem c10_empty_properties_error_witness :
    (∃ e, jmPropertiesInit ["# comment\n", "   \n", ""] = .error e) ∧
    (∀ pom out, ∃ e, fix_manifest pom ["# comment\n", "   \n", ""] out = .error e) ∧
    (∀ pom out, ∃ e, fix_properties pom ["# comment\n", "   \n", ""] out = .error e) :=
  c10_empty_properties_error ["# comment\n", "   \n", ""] (by decide)

/-! ## scripts/retriever.py: the content-hash cache

The filesystem state the script touches: whether the output directory
exists, whether the sentinel file .CURRENT_POM exists and what hash it
holds, the raw bytes of pom.xml, and the basenames of the cache entries
present in the output directory.  hashlib.md5 is the external hash,
passed as a function from byte lists to hex strings. -/

/-- The on-disk state seen by retriever.py. -/
structure RetFS where
  outputDirIsDir : Bool
  curpomExists : Bool
  curpomContent : String
  pomBytes : List Nat
  entries : List String
  deriving Repr, DecidableEq

/-- md5_get (lines 52 to 71): block sizes below -1 are clamped to -1, a
negative size reads the whole file, otherwise the first block_size bytes;
the hash function is applied to exactly those bytes. -/
def md5_get (md5fn : List Nat → String) (bytes : List Nat) (blockSize : Int) : String :=
  let bs := if blockSize < -1 then -1 else blockSize
  md5fn (if bs < 0 then bytes else bytes.take bs.toNat)

/-- md5_verify (lines 73 to 90): hash the file with the default block
size and compare with the recorded hash. -/
def md5_verify (md5fn : List Nat → String) (orig : String) (bytes : List Nat) : Bool :=
  md5_get md5fn bytes (-1) == orig

/-- setup (lines 92 to 144): create the output directory, hash the
current pom.xml, write the sentinel with that hash, write the cache entry
pom-hash, and return the entry's basename. -/
def retrieverSetup (md5fn : List Nat → String) (fs : RetFS) : RetFS × String :=
  let h := md5_get md5fn fs.pomBytes (-1)
  ({ fs with outputDirIsDir := true, curpomExists := true, curpomContent := h,
             entries := ("pom-" ++ h) :: fs.entries }, "pom-" ++ h)

/-- Python str.removeprefix. -/
def pyRemovePre (pre s : String) : String :=
  if pyStartsWith pre s then ⟨s.data.drop pre.data.length⟩ else s

/-- The observable events of one retriever.main run: namespace rebuilds,
the sentinel read, and the final cache-entry read (recorded by name; the
post-rebuild fallback at line 184 receives setup's basename rather than a
full path, which this model records as-is). -/
inductive REvent where
  | setup
  | readSentinel
  | readEntry (name : String)
  deriving Repr, DecidableEq

/-- Whether an event is a cache-entry read. -/
def REvent.isRead : REvent → Bool
  | .readEntry _ => true
  | _ => false

/-- main (lines 146 to 194), unfolded along its control flow: when the
output directory or the sentinel is missing, setup runs and the hash is
recovered from the returned basename; otherwise the sentinel is read and
setup runs when its hash no longer verifies against pom.xml; finally the
entry pom-hash is read, with one more setup first when that entry file is
missing.  Returns the event trace and the final state. -/
def retrieverMain (md5fn : List Nat → String) (fs : RetFS) : List REvent × RetFS :=
  if !(fs.outputDirIsDir && fs.curpomExists) then
    let fs1 := (retrieverSetup md5fn fs).1
    let o := (retrieverSetup md5fn fs).2
    let jsonName := "pom-" ++ pyRemovePre "pom-" o
    if !(fs1.entries.contains jsonName) then
      ([.setup, .setup, .readEntry (retrieverSetup md5fn fs1).2], (retrieverSetup md5fn fs1).1)
    else
      ([.setup, .readEntry jsonName], fs1)
  else
    if !(md5_verify md5fn fs.curpomContent fs.pomBytes) then
      let fs1 := (retrieverSetup md5fn fs).1
      let jsonName := "pom-" ++ fs.curpomContent
      if !(fs1.entries.contains jsonName) then
        ([.readSentinel, .setup, .setup, .readEntry (retrieverSetup md5fn fs1).2],
          (retrieverSetup md5fn fs1).1)
      else
        ([.readSentinel, .setup, .readEntry jsonName], fs1)
    else
      let jsonName := "pom-" ++ fs.curpomContent
      if !(fs.entries.contains jsonName) then
        ([.readSentinel, .setup, .readEntry (retrieverSetup md5fn fs).2],
          (retrieverSetup md5fn fs).1)
      else
        ([.readSentinel, .readEntry jsonName], fs)

/-- The staleness condition under which main rebuilds before reading the
entry named by the sentinel: sentinel (or its directory) missing, or the
recorded hash no longer verifying against the descriptor bytes. -/
def isStale (md5fn : List Nat → String) (fs : RetFS) : Bool :=
  !(fs.outputDirIsDir && fs.curpomExists) ||
    !(md5_verify md5fn fs.curpomContent fs.pomBytes)

/-- Claim C3, confirmed.  The staleness check is true exactly when the
sentinel is missing or the MD5 of the descriptor's current raw bytes
differs from the stored hash; the hash is computed over the exact bytes
(the default block size reads the whole file); and whenever the state is
stale, the run's event trace contains a setup (namespace rebuild) before
any cache-entry read. -/
theorem c3_staleness (md5fn : List Nat → String) (fs : RetFS) :
    (md5_get md5fn fs.pomBytes (-1) = md5fn fs.pomBytes) ∧
    (isStale md5fn fs = true ↔
      (¬(fs.outputDirIsDir = true ∧ fs.curpomExists = true) ∨
        md5fn fs.pomBytes ≠ fs.curpomContent)) ∧
    (isStale md5fn fs = true →
      ∃ l1 l2, (retrieverMain md5fn fs).1 = l1 ++ .setup :: l2 ∧
        ∀ e ∈ l1, e.isRead = false) := by
  have hget : md5_get md5fn fs.pomBytes (-1) = md5fn fs.pomBytes := by
    simp [md5_get]
  refine ⟨hget, ?_, ?_⟩
  · simp only [isStale, md5_verify, hget]
    cases hdir : fs.outputDirIsDir <;> cases hex : fs.curpomExists <;>
      simp [hdir, hex, beq_eq_false_iff_ne]
  · intro hst
    simp only [retrieverMain]
    split
    next hc1 =>
      split
      next => exact ⟨[], _, rfl, by decide⟩
      next => exact ⟨[], _, rfl, by decide⟩
    next hc1 =>
      split
      next hv =>
        split
        next => exact ⟨[.readSentinel], _, rfl, by decide⟩
        next => exact ⟨[.readSentinel], _, rfl, by decide⟩
      next hv =>
        exfalso
        simp only [isStale, Bool.or_eq_true] at hst
        rcases hst with h | h
        · exact hc1 h
        · exact hv h

/-- Witness for claim C3: a state whose sentinel hash no longer matches
is stale, and the run rebuilds before reading any cache entry. -/
theorem c3_staleness_witness :
    ∃ l1 l2, (retrieverMain (fun b => toString b.length)
        ⟨true, true, "old", [7, 7], []⟩).1 = l1 ++ REvent.setup :: l2 ∧
      ∀ e ∈ l1, e.isRead = false :=
  (c3_staleness (fun b => toString b.length) ⟨true, true, "old", [7, 7], []⟩).2.2 (by decide)

/-- Witness for the amended claim C9 at a concrete descriptor and clock
reading. -/
theorem c9_amended_witness :
    pomItems pomD0 "2024-01-01T00:00:00Z" = pomItems pomD0 "2024-01-01T00:00:00Z" ↔
      ("2024-01-01T00:00:00Z" : String) = "2024-01-01T00:00:00Z" :=
  c9_amended.2.2 pomD0 "2024-01-01T00:00:00Z" "2024-01-01T00:00:00Z"
